import Mathlib

/-!
# CRI plugin bootstrap and block-I/O class selection

A shallow embedding of `pkg/cri/cri.go` (`initCRIService`, `setGLogLevel`,
`getNRIPlugin`) and of `pkg/cri/sbserver/blockio_linux.go`
(`blockIOClassFromAnnotations`).

Go values are embedded as follows.

* An `error` is a `GoError`: its message together with the messages of the errors
  it wraps through `%w`; a nil error is `none`.
* A Go result pair `(v, err)` is a Lean pair of options, so that the embedding does
  not assume that a callee returns a nil value with a non-nil error.
* Calls into packages that are not part of these two files (the configuration
  validator, the containerd client factory, the two service constructors, the plugin
  lookup, the environment, the annotation parser) are fields of `Host` and `BlockEnv`.
* The observable effects of a call (log lines, calls to collaborators, the goroutine
  dispatch, process termination) are recorded as a list of `Event`s in program order.
-/

namespace Cri

/-! ## Errors -/

/-- Go error value: the text of `Error()` and the texts of the errors reached by
repeated `Unwrap`, outermost first. -/
structure GoError where
  msg : String
  chain : List String
deriving DecidableEq, Repr

/-- Error built by `errors.New(s)` or by `fmt.Errorf` without a `%w` verb: it wraps nothing. -/
def errorsNew (s : String) : GoError := ⟨s, []⟩

/-- Error built by `fmt.Errorf(p + "%w", err)`: the message is `p` followed by the
message of `err`, and `Unwrap` gives `err` back. -/
def errorfW (p : String) (err : GoError) : GoError := ⟨p ++ err.msg, err.msg :: err.chain⟩

/-- Result of `errors.Unwrap`. -/
def GoError.unwrap (e : GoError) : Option GoError :=
  match e.chain with
  | [] => none
  | m :: rest => some ⟨m, rest⟩

/-! ## logrus levels and klog flags -/

/-- The seven levels of `logrus.Level`. -/
inductive Level where
  | PanicLevel
  | FatalLevel
  | ErrorLevel
  | WarnLevel
  | InfoLevel
  | DebugLevel
  | TraceLevel
deriving DecidableEq, Repr

/-- One flag of a `flag.FlagSet`: its name, the text of its current value and the
check that its `Value.Set` performs on an input (`none`: accepted). -/
structure Flag where
  name : String
  value : String
  check : String → Option GoError

/-- Flag set, as the flags registered in it. -/
abbrev FlagSet := List Flag

/-- Method `(*flag.FlagSet).Set`: fails when no flag has the name or when the flag
rejects the value, and stores the value otherwise. -/
def FlagSet.Set : FlagSet → String → String → FlagSet × Option GoError
  | [], name, _ => ([], some (errorsNew ("no such flag -" ++ name)))
  | f :: fs, name, value =>
    if f.name = name then
      match f.check value with
      | some err => (f :: fs, some err)
      | none => ({ f with value := value } :: fs, none)
    else
      let r := FlagSet.Set fs name value
      (f :: r.1, r.2)

/-- Text of the current value of the flag called `name`, if it is registered. -/
def FlagSet.Lookup : FlagSet → String → Option String
  | [], _ => none
  | f :: fs, name => if f.name = name then some f.value else FlagSet.Lookup fs name

/-- Value of a decimal digit. -/
def digitVal (c : Char) : Option Nat :=
  if c.toNat < 48 then none else if c.toNat ≤ 57 then some (c.toNat - 48) else none

/-- Decimal reading of a list of digits, most significant first, on top of `acc`. -/
def decimalAux : List Char → Nat → Option Nat
  | [], acc => some acc
  | c :: cs, acc =>
    match digitVal c with
    | none => none
    | some d => decimalAux cs (10 * acc + d)

/-- Number denoted by a non-empty string of decimal digits. -/
def decimal (s : String) : Option Nat :=
  match s.data with
  | [] => none
  | cs => decimalAux cs 0

/-- Verbosity number that klog is configured with: the number denoted by the value
of its `v` flag. -/
def klogVerbosity (fs : FlagSet) : Option Nat := (FlagSet.Lookup fs "v").bind decimal

/-- Function `setGLogLevel` of cri.go, on the level `l` that `logrus.GetLevel()` reports and
on the flag set `fs` that `klog.InitFlags` has filled. Returns the flag set after the
call and the returned error. -/
def setGLogLevel (l : Level) (fs : FlagSet) : FlagSet × Option GoError :=
  let r := FlagSet.Set fs "logtostderr" "true"
  match r.2 with
  | some err => (r.1, some err)
  | none =>
    match l with
    | .TraceLevel => FlagSet.Set r.1 "v" "5"
    | .DebugLevel => FlagSet.Set r.1 "v" "4"
    | .InfoLevel => FlagSet.Set r.1 "v" "2"
    | .WarnLevel => (r.1, none)
    | .ErrorLevel => (r.1, none)
    | .FatalLevel => (r.1, none)
    | .PanicLevel => (r.1, none)

/-! ## Data of the plugin framework -/

/-- Platform descriptor `imagespec.Platform`. -/
structure Platform where
  Architecture : String
  OS : String
  Variant : String
deriving DecidableEq, Repr

/-- Plugin metadata `plugin.Meta`; the `Exports` map is kept as its list of entries. -/
structure Meta where
  Platforms : List Platform
  Exports : List (String × String)
  Capabilities : List String
deriving DecidableEq, Repr

/-- Section `ContainerdConfig` of the plugin configuration: the one setting that
blockio_linux.go reads. -/
structure ContainerdConfig where
  IgnoreBlockIONotEnabledErrors : Bool
deriving DecidableEq, Repr

/-- Plugin configuration `criconfig.PluginConfig`: its `ContainerdConfig` section and a
listing of its other settings (the struct is declared outside these sources and is only
handed on by cri.go). -/
structure PluginConfig where
  ContainerdConfig : ContainerdConfig
  settings : List (String × String)
deriving DecidableEq, Repr

/-- Service configuration `criconfig.Config`. -/
structure Config where
  PluginConfig : PluginConfig
  ContainerdRootDir : String
  ContainerdEndpoint : String
  RootDir : String
  StateDir : String
deriving DecidableEq, Repr

/-- Init context `plugin.InitContext`. `Config` is an empty-interface in Go: `none` stands
for a value whose dynamic type is not `*criconfig.PluginConfig`. -/
structure InitContext where
  Root : String
  State : String
  Address : String
  Config : Option PluginConfig
  Meta : Meta
deriving DecidableEq, Repr

/-- Behaviour of the methods of `nri.API` that cri.go calls: the error returned by `Start`. -/
structure NriAPI where
  Start : Option GoError
deriving DecidableEq, Repr

/-- Non-nil empty-interface value returned by the plugin lookup: the name of its dynamic
type (what `%T` prints) and, when that type implements `nri.API`, its methods. -/
structure Dyn where
  typeName : String
  api : Option NriAPI
deriving DecidableEq, Repr

/-- Non-nil value of interface type `nri.API`. -/
structure APIHandle where
  typeName : String
  impl : NriAPI
deriving DecidableEq, Repr

/-- Runtime client `*containerd.Client`. -/
structure Client where
  handle : Nat
deriving DecidableEq, Repr

/-- Non-nil value of interface type `server.CRIService`. -/
structure CRIService where
  handle : Nat
deriving DecidableEq, Repr

/-- What lies outside cri.go: constants of other packages, process state (environment,
logrus level, klog flags) and the collaborators that `initCRIService` calls. -/
structure Host where
  DefaultSpec : Platform
  CRIVersion : String
  CRIVersionAlpha : String
  K8sContainerdNamespace : String
  NRIApiPlugin : String
  logrusLevel : Level
  klogFlags : FlagSet
  filepathDir : String → String
  formatConfig : Config → String
  Getenv : String → String
  ValidatePluginConfig : PluginConfig → Option GoError
  containerdNew : String → String → InitContext → Option Client × Option GoError
  GetByID : InitContext → String → String → Option Dyn × Option GoError
  sbserverNewCRIService : Config → Option Client → Option CRIService × Option GoError
  serverNewCRIService : Config → Option Client → Option APIHandle → Option CRIService × Option GoError

/-! ## Observable effects -/

/-- Effects of `initCRIService`, in program order. -/
inductive Event where
  | ValidatePluginConfig (cfg : PluginConfig)
  | logInfo (msg : String)
  | setGLogLevel
  | containerdNew (ns : String)
  | Getenv (name : String)
  | GetByID (t : String) (id : String)
  | sbserverNewCRIService (c : Config) (client : Option Client)
  | serverNewCRIService (c : Config) (client : Option Client) (nrip : Option APIHandle)
  | goRun (s : Option CRIService)
  | nriStart
  | logFatal (msg : String) (err : GoError)
deriving DecidableEq, Repr

/-- How a call of `initCRIService` ends: it returns a service handle and an error, or
the process is terminated by a fatal log line, or the call panics. -/
inductive Outcome where
  | returned (s : Option CRIService) (err : Option GoError)
  | fatal
  | panicked
deriving DecidableEq, Repr

/-- Everything a call of `initCRIService` leaves behind: the init context and the klog
flags after the call, the effects in order, and how the call ended. -/
structure Run where
  ic : InitContext
  klog : FlagSet
  trace : List Event
  outcome : Outcome

/-- Recogniser of a call to `containerd.New`. -/
@[simp]
def Event.isContainerdNew : Event → Bool
  | .containerdNew _ => true
  | _ => false

/-- Recogniser of an evaluation of an environment variable. -/
@[simp]
def Event.isGetenv : Event → Bool
  | .Getenv _ => true
  | _ => false

/-- Recogniser of a sibling-plugin lookup. -/
@[simp]
def Event.isGetByID : Event → Bool
  | .GetByID _ _ => true
  | _ => false

/-- Recogniser of a call to the sandbox-mode constructor. -/
@[simp]
def Event.isSandboxCtor : Event → Bool
  | .sbserverNewCRIService _ _ => true
  | _ => false

/-- Recogniser of a call to the legacy-mode constructor. -/
@[simp]
def Event.isLegacyCtor : Event → Bool
  | .serverNewCRIService _ _ _ => true
  | _ => false

/-- Recogniser of the dispatch of the service's `Run` to a goroutine. -/
@[simp]
def Event.isGoRun : Event → Bool
  | .goRun _ => true
  | _ => false

/-- Recogniser of a call to the capability's `Start`. -/
@[simp]
def Event.isNriStart : Event → Bool
  | .nriStart => true
  | _ => false

/-! ## cri.go -/

/-- Text printed by `%T` for a value of interface type `nri.API`. -/
def fmtT (api : Option APIHandle) : String :=
  match api with
  | none => "<nil>"
  | some a => a.typeName

/-- Text printed by `%T` for the empty-interface value that the lookup returned. -/
def dynTypeName (p : Option Dyn) : String :=
  match p with
  | none => "<nil>"
  | some d => d.typeName

/-- Type assertion `p.(nri.API)` in its two-result form: on failure the first result is the
zero value of `nri.API`, a nil interface. -/
def assertAPI (p : Option Dyn) : Option APIHandle × Bool :=
  match p with
  | none => (none, false)
  | some d =>
    match d.api with
    | some a => (some ⟨d.typeName, a⟩, true)
    | none => (none, false)

/-- Function `getNRIPlugin` of cri.go. -/
def getNRIPlugin (h : Host) (ic : InitContext) : Option APIHandle × Option GoError :=
  let r := h.GetByID ic h.NRIApiPlugin "nri"
  match r.2 with
  | some err => (none, some err)
  | none =>
    let a := assertAPI r.1
    if a.2 = false then
      (none, some (errorsNew ("NRI plugin (" ++ h.NRIApiPlugin ++ ", \"nri\") has incompatible type "
        ++ fmtT a.1)))
    else (a.1, none)

/-- The struct literal `criconfig.Config` built by `initCRIService`. -/
def mkConfig (h : Host) (ic : InitContext) (pluginConfig : PluginConfig) : Config :=
  { PluginConfig := pluginConfig
    ContainerdRootDir := h.filepathDir ic.Root
    ContainerdEndpoint := ic.Address
    RootDir := ic.Root
    StateDir := ic.State }

/-- Values of the variables `s`, `nrip` and `err` after the service selection, with the
effects of the selection. -/
structure Selected where
  s : Option CRIService
  nrip : Option APIHandle
  err : Option GoError
  trace : List Event

/-- Service selection of `initCRIService` (the `if os.Getenv(...)` statement). -/
def selectService (h : Host) (ic : InitContext) (c : Config) (client : Option Client) : Selected :=
  if h.Getenv "ENABLE_CRI_SANDBOXES" ≠ "" then
    let r := h.sbserverNewCRIService c client
    { s := r.1
      nrip := none
      err := r.2
      trace := [.Getenv "ENABLE_CRI_SANDBOXES",
        .logInfo "using experimental CRI Sandbox server - unset ENABLE_CRI_SANDBOXES to disable",
        .sbserverNewCRIService c client] }
  else
    let n := getNRIPlugin h ic
    let r := h.serverNewCRIService c client n.1
    { s := r.1
      nrip := n.1
      err := r.2
      trace := [.Getenv "ENABLE_CRI_SANDBOXES", .logInfo "using legacy CRI server",
          .GetByID h.NRIApiPlugin "nri"]
        ++ (match n.2 with
            | some _ => [.logInfo "NRI service not found, disabling NRI support"]
            | none => [])
        ++ [.serverNewCRIService c client n.1] }

/-- Tail of `initCRIService` once the service is constructed: the dispatch of `Run`, the
start of the capability and the return. The body of the goroutine (the call of `Run` and
the fatal log line on its error) runs concurrently with the caller and is recorded only as
the dispatch event `goRun`. -/
def startService (s : Option CRIService) (nrip : Option APIHandle) : List Event × Outcome :=
  match nrip with
  | none => ([.goRun s], .returned s none)
  | some a =>
    match a.impl.Start with
    | some err =>
      ([.goRun s, .logInfo "using experimental NRI integration - disable nri plugin to prevent this",
        .nriStart, .logFatal "Failed to start NRI service" err], .fatal)
    | none =>
      ([.goRun s, .logInfo "using experimental NRI integration - disable nri plugin to prevent this",
        .nriStart], .returned s none)

/-- The init context after the first two statements of `initCRIService`. -/
def setMeta (h : Host) (ic : InitContext) : InitContext :=
  { ic with Meta := { ic.Meta with
      Platforms := [h.DefaultSpec]
      Exports := [("CRIVersion", h.CRIVersion), ("CRIVersionAlpha", h.CRIVersionAlpha)] } }

/-- The call `containerd.New("", WithDefaultNamespace(...), WithDefaultPlatform(...),
WithInMemoryServices(ic))` of `initCRIService`. -/
def connect (h : Host) (ic : InitContext) : Option Client × Option GoError :=
  h.containerdNew "" h.K8sContainerdNamespace ic

/-- Effects of `initCRIService` up to and including the call of `setGLogLevel`. -/
def traceToGLog (h : Host) (pluginConfig : PluginConfig) (c : Config) : List Event :=
  [.ValidatePluginConfig pluginConfig,
    .logInfo ("Start cri plugin with config " ++ h.formatConfig c), .setGLogLevel]

/-- Effects of `initCRIService` up to and including the call of `containerd.New`. -/
def traceToClient (h : Host) (pluginConfig : PluginConfig) (c : Config) : List Event :=
  traceToGLog h pluginConfig c
    ++ [.logInfo "Connect containerd service", .containerdNew h.K8sContainerdNamespace]

/-- What `initCRIService` does after the service selection: the error return, or the
dispatch and the start of the capability. -/
def finish (sel : Selected) : List Event × Outcome :=
  match sel.err with
  | some err => ([], .returned none (some (errorfW "failed to create CRI service: " err)))
  | none => startService sel.s sel.nrip

/-- Function `initCRIService` of cri.go. -/
def initCRIService (h : Host) (ic0 : InitContext) : Run :=
  let ic := setMeta h ic0
  match ic.Config with
  | none => { ic := ic, klog := h.klogFlags, trace := [], outcome := .panicked }
  | some pluginConfig =>
    match h.ValidatePluginConfig pluginConfig with
    | some err =>
      { ic := ic, klog := h.klogFlags, trace := [.ValidatePluginConfig pluginConfig],
        outcome := .returned none (some (errorfW "invalid plugin config: " err)) }
    | none =>
      let c := mkConfig h ic pluginConfig
      let g := setGLogLevel h.logrusLevel h.klogFlags
      match g.2 with
      | some err =>
        { ic := ic, klog := g.1, trace := traceToGLog h pluginConfig c,
          outcome := .returned none (some (errorfW "failed to set glog level: " err)) }
      | none =>
        let cl := connect h ic
        match cl.2 with
        | some err =>
          { ic := ic, klog := g.1, trace := traceToClient h pluginConfig c,
            outcome := .returned none (some (errorfW "failed to create containerd client: " err)) }
        | none =>
          let sel := selectService h ic c cl.1
          let f := finish sel
          { ic := ic, klog := g.1, trace := traceToClient h pluginConfig c ++ sel.trace ++ f.1,
            outcome := f.2 }

/-! ## blockio_linux.go -/

/-- Receiver `criService` of package sbserver: the field read by the block-I/O helper. -/
structure criService where
  config : Config
deriving DecidableEq, Repr

/-- What lies outside blockio_linux.go: the annotation parser of goresctrl, the block-I/O
switch of package tasks and the quoting done by the `%q` verb. -/
structure BlockEnv where
  ContainerClassFromAnnotations :
    String → List (String × String) → List (String × String) → String × Option GoError
  BlockIOEnabled : Bool
  quote : String → String

/-- Results of `blockIOClassFromAnnotations` and the debug lines it logs. -/
structure BlockResult where
  cls : String
  err : Option GoError
  debug : List String
deriving DecidableEq, Repr

/-- Method `(*criService).blockIOClassFromAnnotations` of blockio_linux.go. -/
def blockIOClassFromAnnotations (env : BlockEnv) (c : criService) (containerName : String)
    (containerAnnotations podAnnotations : List (String × String)) : BlockResult :=
  let r := env.ContainerClassFromAnnotations containerName containerAnnotations podAnnotations
  match r.2 with
  | some err => { cls := "", err := some err, debug := [] }
  | none =>
    if r.1 ≠ "" ∧ env.BlockIOEnabled = false then
      if c.config.PluginConfig.ContainerdConfig.IgnoreBlockIONotEnabledErrors = true then
        { cls := "", err := none,
          debug := ["continuing create container " ++ containerName
            ++ ", ignoring blockio not enabled (<nil>)"] }
      else
        { cls := "",
          err := some (errorsNew ("blockio disabled, refusing to set blockio class of container "
            ++ env.quote containerName ++ " to " ++ env.quote r.1)),
          debug := [] }
    else { cls := r.1, err := none, debug := [] }

/-! ## Statement vocabulary and sample inputs -/

/-- Numeric value of a logrus level (`PanicLevel` is 0 and `TraceLevel` is 6). -/
def Level.toNat : Level → Nat
  | .PanicLevel => 0
  | .FatalLevel => 1
  | .ErrorLevel => 2
  | .WarnLevel => 3
  | .InfoLevel => 4
  | .DebugLevel => 5
  | .TraceLevel => 6

/-- The call gets past the runtime-client construction, with plugin configuration `pc`:
the configuration has the expected type and is valid, `setGLogLevel` succeeds and so
does `containerd.New`. -/
def ReachesSelection (h : Host) (ic : InitContext) (pc : PluginConfig) : Prop :=
  ic.Config = some pc ∧ h.ValidatePluginConfig pc = none ∧
    (setGLogLevel h.logrusLevel h.klogFlags).2 = none ∧ (connect h (setMeta h ic)).2 = none

/-- Value of the variable `c` of `initCRIService` for plugin configuration `pc`. -/
def configOf (h : Host) (ic : InitContext) (pc : PluginConfig) : Config :=
  mkConfig h (setMeta h ic) pc

/-- Value of the variable `client` of `initCRIService`. -/
def clientOf (h : Host) (ic : InitContext) : Option Client :=
  (connect h (setMeta h ic)).1

/-- Result of the service selection inside `initCRIService`. -/
def selectionOf (h : Host) (ic : InitContext) (pc : PluginConfig) : Selected :=
  selectService h (setMeta h ic) (configOf h ic pc) (clientOf h ic)

/-- Whether the flag set has a flag called `name` whose check accepts `value`. -/
def FlagSet.Accepts : FlagSet → String → String → Bool
  | [], _, _ => false
  | f :: fs, name, value =>
    if f.name = name then (f.check value).isNone else FlagSet.Accepts fs name value

/-- Check of a boolean flag, after `strconv.ParseBool`. -/
def boolCheck (s : String) : Option GoError :=
  if s ∈ ["1", "t", "T", "TRUE", "true", "True", "0", "f", "F", "FALSE", "false", "False"] then none
  else some (errorsNew "parse error")

/-- Check of the klog verbosity flag, for unsigned decimal inputs. -/
def levelCheck (s : String) : Option GoError :=
  match decimal s with
  | some _ => none
  | none => some (errorsNew "parse error")

/-- Sample flag set: the two klog flags that `setGLogLevel` sets, with klog defaults. -/
def sampleFlags : FlagSet :=
  [⟨"logtostderr", "true", boolCheck⟩, ⟨"v", "0", levelCheck⟩]

/-- Sample plugin configuration. -/
def samplePluginConfig : PluginConfig :=
  { ContainerdConfig := { IgnoreBlockIONotEnabledErrors := false }, settings := [] }

/-- Sample init context, with the metadata a host hands over: no platforms, no exports. -/
def sampleIC : InitContext :=
  { Root := "/var/lib/containerd/io.containerd.grpc.v1.cri"
    State := "/run/containerd/io.containerd.grpc.v1.cri"
    Address := "/run/containerd/containerd.sock"
    Config := some samplePluginConfig
    Meta := { Platforms := [], Exports := [], Capabilities := [] } }

/-- Sample conforming NRI plugin value whose `Start` succeeds. -/
def sampleNRI : Dyn := { typeName := "*nri.local", api := some { Start := none } }

/-- Sample host: valid configuration, toggle unset, a conforming NRI plugin, and
collaborators that all succeed. -/
def sampleHost : Host :=
  { DefaultSpec := { Architecture := "amd64", OS := "linux", Variant := "" }
    CRIVersion := "v1"
    CRIVersionAlpha := "v1alpha2"
    K8sContainerdNamespace := "k8s.io"
    NRIApiPlugin := "io.containerd.nri.v1"
    logrusLevel := .InfoLevel
    klogFlags := sampleFlags
    filepathDir := fun _ => "/var/lib/containerd"
    formatConfig := fun _ => "<config>"
    Getenv := fun _ => ""
    ValidatePluginConfig := fun _ => none
    containerdNew := fun _ _ _ => (some ⟨1⟩, none)
    GetByID := fun _ _ _ => (some sampleNRI, none)
    sbserverNewCRIService := fun _ _ => (some ⟨2⟩, none)
    serverNewCRIService := fun _ _ _ => (some ⟨3⟩, none) }

/-- Sample host whose validator rejects the configuration. -/
def hostInvalidConfig : Host :=
  { sampleHost with ValidatePluginConfig := fun _ => some (errorsNew "bad option") }

/-- Sample host whose client factory fails. -/
def hostClientFails : Host :=
  { sampleHost with containerdNew := fun _ _ _ => (none, some (errorsNew "no services")) }

/-- Sample host whose legacy-mode constructor fails. -/
def hostCtorFails : Host :=
  { sampleHost with serverNewCRIService := fun _ _ _ => (none, some (errorsNew "no cni")) }

/-- Sample host with the toggle set. -/
def hostSandbox : Host :=
  { sampleHost with Getenv := fun n => if n = "ENABLE_CRI_SANDBOXES" then "1" else "" }

/-- Sample host in which no NRI plugin is registered: the lookup fails with an error that
wraps a not-found error. -/
def hostNoNRI : Host :=
  { sampleHost with
    GetByID := fun _ t id =>
      (none, some (errorfW ("no " ++ t ++ " plugins with id " ++ id ++ ": ")
        (errorsNew "not found"))) }

/-- Sample host whose NRI plugin value has a type that does not implement `nri.API`. -/
def hostBadNRI (typeName : String) : Host :=
  { sampleHost with GetByID := fun _ _ _ => (some { typeName := typeName, api := none }, none) }

/-- Sample host whose lookup of the NRI plugin fails, with an error that has the text of
the type-mismatch error and wraps nothing. -/
def hostLookupFails : Host :=
  { sampleHost with
    GetByID := fun _ _ _ =>
      (none, some (errorsNew
        "NRI plugin (io.containerd.nri.v1, \"nri\") has incompatible type <nil>")) }

/-- Sample host whose NRI plugin fails to start. -/
def hostStartFails : Host :=
  { sampleHost with
    GetByID := fun _ _ _ =>
      (some { typeName := "*nri.local", api := some { Start := some (errorsNew "nri down") } },
        none) }

/-- Sample block-I/O environment: the class is the value of the container annotation
`io.kubernetes.cri.blockio-class`, if any. -/
def sampleBlockEnv (enabled : Bool) : BlockEnv :=
  { ContainerClassFromAnnotations := fun _ ca _ =>
      match ca.lookup "io.kubernetes.cri.blockio-class" with
      | some v => (v, none)
      | none => ("", none)
    BlockIOEnabled := enabled
    quote := fun s => "\"" ++ s ++ "\"" }

/-- Sample sbserver service with the given `IgnoreBlockIONotEnabledErrors` setting. -/
def sampleService (ignore : Bool) : criService :=
  { config := { PluginConfig := { ContainerdConfig := { IgnoreBlockIONotEnabledErrors := ignore },
                                  settings := [] }
                ContainerdRootDir := "", ContainerdEndpoint := "", RootDir := "", StateDir := "" } }

/-! ## Theorems -/

theorem FlagSet.Set_of_accepts (fs : FlagSet) (n v : String)
    (h : FlagSet.Accepts fs n v = true) :
    (FlagSet.Set fs n v).2 = none ∧ FlagSet.Lookup (FlagSet.Set fs n v).1 n = some v := by
  induction fs with
  | nil => simp [FlagSet.Accepts] at h
  | cons f fs ih =>
    unfold FlagSet.Accepts at h
    unfold FlagSet.Set
    by_cases hn : f.name = n
    · simp only [hn, if_true] at h ⊢
      cases hc : f.check v with
      | none => simp [FlagSet.Lookup, hn]
      | some e => simp [hc] at h
    · simp only [hn, if_false] at h ⊢
      have h2 := ih h
      simp [FlagSet.Lookup, hn, h2]

theorem FlagSet.Set_other (fs : FlagSet) (n v m w : String) (hne : m ≠ n) :
    FlagSet.Lookup (FlagSet.Set fs n v).1 m = FlagSet.Lookup fs m ∧
      FlagSet.Accepts (FlagSet.Set fs n v).1 m w = FlagSet.Accepts fs m w := by
  induction fs with
  | nil => simp [FlagSet.Set, FlagSet.Lookup, FlagSet.Accepts]
  | cons f fs ih =>
    unfold FlagSet.Set
    by_cases hn : f.name = n
    · have hm : ¬ f.name = m := fun hfm => hne (hfm.symm.trans hn)
      simp only [hn, if_true]
      cases hc : f.check v with
      | none => simp [FlagSet.Lookup, FlagSet.Accepts, hn, Ne.symm hne]
      | some e => simp
    · simp only [hn, if_false]
      by_cases hm : f.name = m
      · simp [FlagSet.Lookup, FlagSet.Accepts, hm]
      · simp [FlagSet.Lookup, FlagSet.Accepts, hm, ih.1, ih.2]

/-- C8: for each of the seven logrus levels, `setGLogLevel` succeeds on a klog flag set that
has the flags `logtostderr` and `v` (the latter at its default 0), sets `logtostderr` to
true, and leaves klog with one verbosity number that depends on the level alone: 5 for
trace, 4 for debug, 2 for info and the default 0 for warn, error, fatal and panic; the
number never decreases when the logrus level increases. -/
theorem setGLogLevel_verbosity_table (fs : FlagSet)
    (hstderr : FlagSet.Accepts fs "logtostderr" "true" = true)
    (h5 : FlagSet.Accepts fs "v" "5" = true)
    (h4 : FlagSet.Accepts fs "v" "4" = true)
    (h2 : FlagSet.Accepts fs "v" "2" = true)
    (h0 : FlagSet.Lookup fs "v" = some "0") :
    (∀ l : Level,
      (setGLogLevel l fs).2 = none ∧
      FlagSet.Lookup (setGLogLevel l fs).1 "logtostderr" = some "true" ∧
      klogVerbosity (setGLogLevel l fs).1 = some
        (match l with
          | .TraceLevel => 5
          | .DebugLevel => 4
          | .InfoLevel => 2
          | .WarnLevel => 0
          | .ErrorLevel => 0
          | .FatalLevel => 0
          | .PanicLevel => 0)) ∧
    (∀ (l₁ l₂ : Level) (n₁ n₂ : Nat),
      klogVerbosity (setGLogLevel l₁ fs).1 = some n₁ →
      klogVerbosity (setGLogLevel l₂ fs).1 = some n₂ →
      l₁.toNat ≤ l₂.toNat → n₁ ≤ n₂) := by
  have hvs : ("v" : String) ≠ "logtostderr" := by decide
  have hsv : ("logtostderr" : String) ≠ "v" := by decide
  have s1 := FlagSet.Set_of_accepts fs "logtostderr" "true" hstderr
  have o1 := fun w => FlagSet.Set_other fs "logtostderr" "true" "v" w hvs
  have a5 : FlagSet.Accepts (FlagSet.Set fs "logtostderr" "true").1 "v" "5" = true := by
    rw [(o1 "5").2]; exact h5
  have a4 : FlagSet.Accepts (FlagSet.Set fs "logtostderr" "true").1 "v" "4" = true := by
    rw [(o1 "4").2]; exact h4
  have a2 : FlagSet.Accepts (FlagSet.Set fs "logtostderr" "true").1 "v" "2" = true := by
    rw [(o1 "2").2]; exact h2
  have d5 : decimal "5" = some 5 := by decide
  have d4 : decimal "4" = some 4 := by decide
  have d2 : decimal "2" = some 2 := by decide
  have d0 : decimal "0" = some 0 := by decide
  have key : ∀ l : Level,
      (setGLogLevel l fs).2 = none ∧
      FlagSet.Lookup (setGLogLevel l fs).1 "logtostderr" = some "true" ∧
      klogVerbosity (setGLogLevel l fs).1 = some
        (match l with
          | .TraceLevel => 5
          | .DebugLevel => 4
          | .InfoLevel => 2
          | .WarnLevel => 0
          | .ErrorLevel => 0
          | .FatalLevel => 0
          | .PanicLevel => 0) := by
    intro l
    have t5 := FlagSet.Set_of_accepts _ "v" "5" a5
    have t4 := FlagSet.Set_of_accepts _ "v" "4" a4
    have t2 := FlagSet.Set_of_accepts _ "v" "2" a2
    have k5 := (FlagSet.Set_other (FlagSet.Set fs "logtostderr" "true").1 "v" "5"
      "logtostderr" "" hsv).1
    have k4 := (FlagSet.Set_other (FlagSet.Set fs "logtostderr" "true").1 "v" "4"
      "logtostderr" "" hsv).1
    have k2 := (FlagSet.Set_other (FlagSet.Set fs "logtostderr" "true").1 "v" "2"
      "logtostderr" "" hsv).1
    cases l <;>
      simp [setGLogLevel, klogVerbosity, s1.1, s1.2, (o1 "").1, h0, d0, d5, d4, d2,
        t5.1, t5.2, t4.1, t4.2, t2.1, t2.2, k5, k4, k2]
  refine ⟨key, ?_⟩
  intro l₁ l₂ n₁ n₂ e₁ e₂ hle
  rw [(key l₁).2.2] at e₁
  rw [(key l₂).2.2] at e₂
  cases l₁ <;> cases l₂ <;> simp [Level.toNat] at hle e₁ e₂ ⊢ <;> omega

/-- Witness of C8 on the sample klog flag set. -/
theorem setGLogLevel_verbosity_table_witness :
    klogVerbosity (setGLogLevel .TraceLevel sampleFlags).1 = some 5 ∧
    klogVerbosity (setGLogLevel .DebugLevel sampleFlags).1 = some 4 ∧
    klogVerbosity (setGLogLevel .InfoLevel sampleFlags).1 = some 2 ∧
    klogVerbosity (setGLogLevel .WarnLevel sampleFlags).1 = some 0 ∧
    FlagSet.Lookup (setGLogLevel .PanicLevel sampleFlags).1 "logtostderr" = some "true" :=
  have t := (setGLogLevel_verbosity_table sampleFlags (by decide) (by decide) (by decide)
    (by decide) (by decide)).1
  ⟨(t .TraceLevel).2.2, (t .DebugLevel).2.2, (t .InfoLevel).2.2, (t .WarnLevel).2.2,
    (t .PanicLevel).2.1⟩

/-- C10: `blockIOClassFromAnnotations` returns a non-empty class with a nil error only if block
I/O is enabled, and then the class is the one computed by the annotation parser: whenever
the parser succeeds and block I/O is enabled, the computed class is returned with a nil
error. When the computed class is non-empty and block I/O is not enabled it returns the
empty class with a nil error if `IgnoreBlockIONotEnabledErrors` is set and the empty class
with an error otherwise; an error of the parser is returned unchanged with the empty
class; and an empty computed class is returned as the empty class with a nil error whether
or not block I/O is enabled. -/
theorem blockIOClassFromAnnotations_cases (env : BlockEnv) (c : criService)
    (containerName : String) (containerAnnotations podAnnotations : List (String × String)) :
    (((blockIOClassFromAnnotations env c containerName containerAnnotations podAnnotations).cls ≠ "" ∧
      (blockIOClassFromAnnotations env c containerName containerAnnotations podAnnotations).err = none) →
        env.BlockIOEnabled = true ∧
        (blockIOClassFromAnnotations env c containerName containerAnnotations podAnnotations).cls =
          (env.ContainerClassFromAnnotations containerName containerAnnotations podAnnotations).1 ∧
        (env.ContainerClassFromAnnotations containerName containerAnnotations podAnnotations).2 = none) ∧
    (((env.ContainerClassFromAnnotations containerName containerAnnotations podAnnotations).2 = none ∧
      (env.ContainerClassFromAnnotations containerName containerAnnotations podAnnotations).1 ≠ "" ∧
      env.BlockIOEnabled = false) →
        (c.config.PluginConfig.ContainerdConfig.IgnoreBlockIONotEnabledErrors = true →
          (blockIOClassFromAnnotations env c containerName containerAnnotations podAnnotations).cls = "" ∧
          (blockIOClassFromAnnotations env c containerName containerAnnotations podAnnotations).err = none) ∧
        (c.config.PluginConfig.ContainerdConfig.IgnoreBlockIONotEnabledErrors = false →
          (blockIOClassFromAnnotations env c containerName containerAnnotations podAnnotations).cls = "" ∧
          (blockIOClassFromAnnotations env c containerName containerAnnotations podAnnotations).err =
            some (errorsNew ("blockio disabled, refusing to set blockio class of container "
              ++ env.quote containerName ++ " to " ++ env.quote
                (env.ContainerClassFromAnnotations containerName containerAnnotations
                  podAnnotations).1)))) ∧
    (∀ e : GoError,
      (env.ContainerClassFromAnnotations containerName containerAnnotations podAnnotations).2 = some e →
        (blockIOClassFromAnnotations env c containerName containerAnnotations podAnnotations).cls = "" ∧
        (blockIOClassFromAnnotations env c containerName containerAnnotations podAnnotations).err =
          some e) ∧
    (((env.ContainerClassFromAnnotations containerName containerAnnotations podAnnotations).2 = none ∧
      (env.ContainerClassFromAnnotations containerName containerAnnotations podAnnotations).1 = "") →
        (blockIOClassFromAnnotations env c containerName containerAnnotations podAnnotations).cls = "" ∧
        (blockIOClassFromAnnotations env c containerName containerAnnotations podAnnotations).err =
          none) ∧
    (((env.ContainerClassFromAnnotations containerName containerAnnotations podAnnotations).2 = none ∧
      env.BlockIOEnabled = true) →
        (blockIOClassFromAnnotations env c containerName containerAnnotations podAnnotations).cls =
          (env.ContainerClassFromAnnotations containerName containerAnnotations podAnnotations).1 ∧
        (blockIOClassFromAnnotations env c containerName containerAnnotations podAnnotations).err =
          none) := by
  unfold blockIOClassFromAnnotations
  generalize env.ContainerClassFromAnnotations containerName containerAnnotations podAnnotations = q
  rcases q with ⟨cls, _ | e⟩
  · by_cases hc : cls = ""
    · simp [hc]
    · cases hen : env.BlockIOEnabled <;>
        cases hig : c.config.PluginConfig.ContainerdConfig.IgnoreBlockIONotEnabledErrors <;>
        simp [hc]
  · simp

/-- Witness of C10: with block I/O disabled and errors not ignored, the sample service
refuses the class `gold` of container `c1`; with block I/O enabled it returns `gold` with a
nil error. -/
theorem blockIOClassFromAnnotations_cases_witness :
    (blockIOClassFromAnnotations (sampleBlockEnv false) (sampleService false) "c1"
        [("io.kubernetes.cri.blockio-class", "gold")] []).cls = "" ∧
    (blockIOClassFromAnnotations (sampleBlockEnv false) (sampleService false) "c1"
        [("io.kubernetes.cri.blockio-class", "gold")] []).err =
      some (errorsNew
        "blockio disabled, refusing to set blockio class of container \"c1\" to \"gold\"") ∧
    (blockIOClassFromAnnotations (sampleBlockEnv true) (sampleService false) "c1"
        [("io.kubernetes.cri.blockio-class", "gold")] []).cls = "gold" ∧
    (blockIOClassFromAnnotations (sampleBlockEnv true) (sampleService false) "c1"
        [("io.kubernetes.cri.blockio-class", "gold")] []).err = none :=
  have t := blockIOClassFromAnnotations_cases (sampleBlockEnv false) (sampleService false) "c1"
    [("io.kubernetes.cri.blockio-class", "gold")] []
  have u := blockIOClassFromAnnotations_cases (sampleBlockEnv true) (sampleService false) "c1"
    [("io.kubernetes.cri.blockio-class", "gold")] []
  ⟨(t.2.1 (by decide)).2 (by decide) |>.1, (t.2.1 (by decide)).2 (by decide) |>.2,
    (u.2.2.2.2 (by decide)).1, (u.2.2.2.2 (by decide)).2⟩

/-- C9, evaluated: for two plugin values of different dynamic types, neither implementing
`nri.API`, `getNRIPlugin` returns the same error, whose message ends in the type of the nil
`nri.API` value and contains the type of neither plugin value. -/
theorem getNRIPlugin_mismatch_message_same :
    dynTypeName (some ⟨"*blockio.Plugin", none⟩) ≠ dynTypeName (some ⟨"int", none⟩) ∧
    getNRIPlugin (hostBadNRI "*blockio.Plugin") sampleIC =
      (none, some (errorsNew
        "NRI plugin (io.containerd.nri.v1, \"nri\") has incompatible type <nil>")) ∧
    getNRIPlugin (hostBadNRI "int") sampleIC =
      (none, some (errorsNew
        "NRI plugin (io.containerd.nri.v1, \"nri\") has incompatible type <nil>")) := by
  decide

theorem setMeta_Config (h : Host) (ic : InitContext) : (setMeta h ic).Config = ic.Config := rfl

theorem initCRIService_of_reaches (h : Host) (ic : InitContext) (pc : PluginConfig)
    (hr : ReachesSelection h ic pc) :
    initCRIService h ic =
      { ic := setMeta h ic
        klog := (setGLogLevel h.logrusLevel h.klogFlags).1
        trace := traceToClient h pc (configOf h ic pc) ++ (selectionOf h ic pc).trace
          ++ (finish (selectionOf h ic pc)).1
        outcome := (finish (selectionOf h ic pc)).2 } := by
  obtain ⟨hcfg, hval, hglog, hcl⟩ := hr
  unfold initCRIService
  simp only [setMeta_Config, hcfg, hval, hglog, hcl, selectionOf, configOf, clientOf]

theorem traceToClient_counts (h : Host) (pc : PluginConfig) (c : Config) :
    List.countP Event.isContainerdNew (traceToClient h pc c) = 1 ∧
    List.countP Event.isGetenv (traceToClient h pc c) = 0 ∧
    List.countP Event.isGetByID (traceToClient h pc c) = 0 ∧
    List.countP Event.isSandboxCtor (traceToClient h pc c) = 0 ∧
    List.countP Event.isLegacyCtor (traceToClient h pc c) = 0 ∧
    List.countP Event.isGoRun (traceToClient h pc c) = 0 ∧
    List.countP Event.isNriStart (traceToClient h pc c) = 0 := by
  simp [traceToClient, traceToGLog]

theorem selectService_sandbox (h : Host) (ic : InitContext) (c : Config) (cl : Option Client)
    (ht : h.Getenv "ENABLE_CRI_SANDBOXES" ≠ "") :
    selectService h ic c cl =
      { s := (h.sbserverNewCRIService c cl).1
        nrip := none
        err := (h.sbserverNewCRIService c cl).2
        trace := [.Getenv "ENABLE_CRI_SANDBOXES",
          .logInfo "using experimental CRI Sandbox server - unset ENABLE_CRI_SANDBOXES to disable",
          .sbserverNewCRIService c cl] } := by
  simp [selectService, ht]

theorem selectService_legacy (h : Host) (ic : InitContext) (c : Config) (cl : Option Client)
    (ht : h.Getenv "ENABLE_CRI_SANDBOXES" = "") :
    selectService h ic c cl =
      { s := (h.serverNewCRIService c cl (getNRIPlugin h ic).1).1
        nrip := (getNRIPlugin h ic).1
        err := (h.serverNewCRIService c cl (getNRIPlugin h ic).1).2
        trace := [.Getenv "ENABLE_CRI_SANDBOXES", .logInfo "using legacy CRI server",
            .GetByID h.NRIApiPlugin "nri"]
          ++ (match (getNRIPlugin h ic).2 with
              | some _ => [.logInfo "NRI service not found, disabling NRI support"]
              | none => [])
          ++ [.serverNewCRIService c cl (getNRIPlugin h ic).1] } := by
  simp [selectService, ht]

theorem selectService_counts (h : Host) (ic : InitContext) (c : Config) (cl : Option Client) :
    List.countP Event.isContainerdNew (selectService h ic c cl).trace = 0 ∧
    List.countP Event.isGoRun (selectService h ic c cl).trace = 0 ∧
    List.countP Event.isNriStart (selectService h ic c cl).trace = 0 := by
  by_cases ht : h.Getenv "ENABLE_CRI_SANDBOXES" = ""
  · rw [selectService_legacy h ic c cl ht]
    cases (getNRIPlugin h ic).2 <;> simp
  · rw [selectService_sandbox h ic c cl ht]
    simp

theorem finish_counts (sel : Selected) :
    List.countP Event.isContainerdNew (finish sel).1 = 0 ∧
    List.countP Event.isGetenv (finish sel).1 = 0 ∧
    List.countP Event.isGetByID (finish sel).1 = 0 ∧
    List.countP Event.isSandboxCtor (finish sel).1 = 0 ∧
    List.countP Event.isLegacyCtor (finish sel).1 = 0 := by
  unfold finish startService
  rcases sel with ⟨s, nrip, err, tr⟩
  cases err with
  | some e => simp
  | none =>
    cases nrip with
    | none => simp
    | some a =>
      cases hs : a.impl.Start <;> simp [hs]

theorem finish_of_err (sel : Selected) (e : GoError) (he : sel.err = some e) :
    finish sel = ([], .returned none (some (errorfW "failed to create CRI service: " e))) := by
  simp [finish, he]

theorem finish_of_ok (sel : Selected) (he : sel.err = none) :
    finish sel = startService sel.s sel.nrip := by
  simp [finish, he]

/-- C1: when a pre-dispatch step of `initCRIService` fails with error `e` (the validation of
the plugin configuration, the construction of the runtime client, or the selected service
constructor), the call returns a nil service handle with an error that wraps `e`, and no
later step is performed: after an invalid configuration neither the client factory nor a
service constructor is called, after a client failure no service constructor is called, and
in all three cases `Run` is not dispatched and the capability is not started. -/
theorem initCRIService_pre_dispatch_failure (h : Host) (ic : InitContext) (pc : PluginConfig)
    (e : GoError) (hcfg : ic.Config = some pc) :
    (h.ValidatePluginConfig pc = some e →
      (initCRIService h ic).outcome =
        .returned none (some (errorfW "invalid plugin config: " e)) ∧
      List.countP Event.isContainerdNew (initCRIService h ic).trace = 0 ∧
      List.countP Event.isSandboxCtor (initCRIService h ic).trace = 0 ∧
      List.countP Event.isLegacyCtor (initCRIService h ic).trace = 0 ∧
      List.countP Event.isGoRun (initCRIService h ic).trace = 0 ∧
      List.countP Event.isNriStart (initCRIService h ic).trace = 0) ∧
    ((h.ValidatePluginConfig pc = none ∧ (setGLogLevel h.logrusLevel h.klogFlags).2 = none ∧
        (connect h (setMeta h ic)).2 = some e) →
      (initCRIService h ic).outcome =
        .returned none (some (errorfW "failed to create containerd client: " e)) ∧
      List.countP Event.isSandboxCtor (initCRIService h ic).trace = 0 ∧
      List.countP Event.isLegacyCtor (initCRIService h ic).trace = 0 ∧
      List.countP Event.isGoRun (initCRIService h ic).trace = 0 ∧
      List.countP Event.isNriStart (initCRIService h ic).trace = 0) ∧
    ((ReachesSelection h ic pc ∧
        ((h.Getenv "ENABLE_CRI_SANDBOXES" ≠ "" ∧
            (h.sbserverNewCRIService (configOf h ic pc) (clientOf h ic)).2 = some e) ∨
          (h.Getenv "ENABLE_CRI_SANDBOXES" = "" ∧
            (h.serverNewCRIService (configOf h ic pc) (clientOf h ic)
              (getNRIPlugin h (setMeta h ic)).1).2 = some e))) →
      (initCRIService h ic).outcome =
        .returned none (some (errorfW "failed to create CRI service: " e)) ∧
      List.countP Event.isGoRun (initCRIService h ic).trace = 0 ∧
      List.countP Event.isNriStart (initCRIService h ic).trace = 0) ∧
    (∀ p : String, (errorfW p e).unwrap = some e) := by
  refine ⟨?_, ?_, ?_, ?_⟩
  · intro hval
    unfold initCRIService
    simp [setMeta_Config, hcfg, hval]
  · rintro ⟨hval, hglog, hcl⟩
    unfold initCRIService
    simp [setMeta_Config, hcfg, hval, hglog, hcl, traceToClient, traceToGLog]
  · rintro ⟨hr, hsel⟩
    have herr : (selectionOf h ic pc).err = some e := by
      unfold selectionOf
      rcases hsel with ⟨ht, hc⟩ | ⟨ht, hc⟩
      · rw [selectService_sandbox _ _ _ _ ht]; exact hc
      · rw [selectService_legacy _ _ _ _ ht]; exact hc
    have hc := traceToClient_counts h pc (configOf h ic pc)
    have hs := selectService_counts h (setMeta h ic) (configOf h ic pc) (clientOf h ic)
    rw [initCRIService_of_reaches h ic pc hr, finish_of_err _ e herr]
    have hs1 : List.countP Event.isGoRun (selectionOf h ic pc).trace = 0 := hs.2.1
    have hs2 : List.countP Event.isNriStart (selectionOf h ic pc).trace = 0 := hs.2.2
    simp [List.countP_append, hc.2.2.2.2.2.1, hc.2.2.2.2.2.2, hs1, hs2]
  · intro p
    rfl

/-- Witness of C1 on three sample hosts: one whose validator rejects the configuration, one
whose client factory fails, and one whose legacy-mode constructor fails. -/
theorem initCRIService_pre_dispatch_failure_witness :
    (initCRIService hostInvalidConfig sampleIC).outcome =
      .returned none (some ⟨"invalid plugin config: bad option", ["bad option"]⟩) ∧
    (initCRIService hostClientFails sampleIC).outcome =
      .returned none
        (some ⟨"failed to create containerd client: no services", ["no services"]⟩) ∧
    (initCRIService hostCtorFails sampleIC).outcome =
      .returned none (some ⟨"failed to create CRI service: no cni", ["no cni"]⟩) ∧
    List.countP Event.isGoRun (initCRIService hostCtorFails sampleIC).trace = 0 :=
  ⟨((initCRIService_pre_dispatch_failure hostInvalidConfig sampleIC samplePluginConfig
      (errorsNew "bad option") rfl).1 rfl).1,
    ((initCRIService_pre_dispatch_failure hostClientFails sampleIC samplePluginConfig
      (errorsNew "no services") rfl).2.1 (by decide)).1,
    ((initCRIService_pre_dispatch_failure hostCtorFails sampleIC samplePluginConfig
      (errorsNew "no cni") rfl).2.2.1 (by unfold ReachesSelection; decide)).1,
    ((initCRIService_pre_dispatch_failure hostCtorFails sampleIC samplePluginConfig
      (errorsNew "no cni") rfl).2.2.1 (by unfold ReachesSelection; decide)).2.1⟩

/-- C2, refuted as stated: on the sample host whose validator rejects the configuration the
call fails, and the init context after the call differs from the one before it, because
`Meta.Platforms` and `Meta.Exports` were assigned before the validation. -/
theorem initCRIService_invalid_config_changes_meta :
    (initCRIService hostInvalidConfig sampleIC).outcome =
      .returned none (some ⟨"invalid plugin config: bad option", ["bad option"]⟩) ∧
    (initCRIService hostInvalidConfig sampleIC).ic ≠ sampleIC ∧
    sampleIC.Meta.Platforms = [] ∧
    (initCRIService hostInvalidConfig sampleIC).ic.Meta.Platforms =
      [{ Architecture := "amd64", OS := "linux", Variant := "" }] ∧
    sampleIC.Meta.Exports = [] ∧
    (initCRIService hostInvalidConfig sampleIC).ic.Meta.Exports =
      [("CRIVersion", "v1"), ("CRIVersionAlpha", "v1alpha2")] := by
  decide

/-- C2, amended: for every invalid plugin configuration, `initCRIService` returns the wrapped
validation error after the validator call and nothing else (no client, no service, no
change of the klog flags), and the init context after the call is the one before it except
that `Meta.Platforms` holds the default platform alone and `Meta.Exports` holds the two
CRI version entries. -/
theorem initCRIService_invalid_config_context (h : Host) (ic : InitContext) (pc : PluginConfig)
    (e : GoError) (hcfg : ic.Config = some pc) (hval : h.ValidatePluginConfig pc = some e) :
    (initCRIService h ic).outcome = .returned none (some (errorfW "invalid plugin config: " e)) ∧
    (initCRIService h ic).trace = [.ValidatePluginConfig pc] ∧
    (initCRIService h ic).klog = h.klogFlags ∧
    (initCRIService h ic).ic.Root = ic.Root ∧
    (initCRIService h ic).ic.State = ic.State ∧
    (initCRIService h ic).ic.Address = ic.Address ∧
    (initCRIService h ic).ic.Config = ic.Config ∧
    (initCRIService h ic).ic.Meta.Capabilities = ic.Meta.Capabilities ∧
    (initCRIService h ic).ic.Meta.Platforms = [h.DefaultSpec] ∧
    (initCRIService h ic).ic.Meta.Exports =
      [("CRIVersion", h.CRIVersion), ("CRIVersionAlpha", h.CRIVersionAlpha)] := by
  unfold initCRIService
  simp [setMeta_Config, hcfg, hval, setMeta]

/-- Witness of the amended C2 on the sample host whose validator rejects the configuration. -/
theorem initCRIService_invalid_config_context_witness :
    sampleIC.Config = some samplePluginConfig ∧
    hostInvalidConfig.ValidatePluginConfig samplePluginConfig = some (errorsNew "bad option") ∧
    (initCRIService hostInvalidConfig sampleIC).trace = [.ValidatePluginConfig samplePluginConfig] ∧
    (initCRIService hostInvalidConfig sampleIC).ic.Root = sampleIC.Root :=
  ⟨rfl, rfl,
    (initCRIService_invalid_config_context hostInvalidConfig sampleIC samplePluginConfig
      (errorsNew "bad option") rfl rfl).2.1,
    (initCRIService_invalid_config_context hostInvalidConfig sampleIC samplePluginConfig
      (errorsNew "bad option") rfl rfl).2.2.2.1⟩

/-- C3: in every call of `initCRIService` that reaches the service selection, exactly one of
the two service constructors is called, exactly once: the sandbox-mode constructor, and not
the legacy-mode one, when `ENABLE_CRI_SANDBOXES` is set, and the legacy-mode constructor,
and not the sandbox-mode one, when it is unset. With the toggle set no plugin lookup takes
place, the sandbox-mode constructor receives the configuration and the client only, and the
whole call is the same whatever the plugin lookup would answer. -/
theorem initCRIService_constructor_exclusive (h : Host) (ic : InitContext) (pc : PluginConfig)
    (hr : ReachesSelection h ic pc) :
    (h.Getenv "ENABLE_CRI_SANDBOXES" ≠ "" →
      List.countP Event.isSandboxCtor (initCRIService h ic).trace = 1 ∧
      List.countP Event.isLegacyCtor (initCRIService h ic).trace = 0 ∧
      Event.sbserverNewCRIService (configOf h ic pc) (clientOf h ic) ∈ (initCRIService h ic).trace ∧
      List.countP Event.isGetByID (initCRIService h ic).trace = 0 ∧
      ∀ g : InitContext → String → String → Option Dyn × Option GoError,
        initCRIService { h with GetByID := g } ic = initCRIService h ic) ∧
    (h.Getenv "ENABLE_CRI_SANDBOXES" = "" →
      List.countP Event.isLegacyCtor (initCRIService h ic).trace = 1 ∧
      List.countP Event.isSandboxCtor (initCRIService h ic).trace = 0 ∧
      Event.serverNewCRIService (configOf h ic pc) (clientOf h ic)
        (getNRIPlugin h (setMeta h ic)).1 ∈ (initCRIService h ic).trace) := by
  have hc := traceToClient_counts h pc (configOf h ic pc)
  have hf := finish_counts (selectionOf h ic pc)
  constructor
  · intro ht
    have hsel : selectionOf h ic pc = _ :=
      selectService_sandbox h (setMeta h ic) (configOf h ic pc) (clientOf h ic) ht
    refine ⟨?_, ?_, ?_, ?_, ?_⟩
    · rw [initCRIService_of_reaches h ic pc hr]
      simp only [List.countP_append, hc.2.2.2.1, hf.2.2.2.1]
      rw [hsel]; simp
    · rw [initCRIService_of_reaches h ic pc hr]
      simp only [List.countP_append, hc.2.2.2.2.1, hf.2.2.2.2]
      rw [hsel]; simp
    · rw [initCRIService_of_reaches h ic pc hr]
      simp only [List.mem_append]
      rw [hsel]; simp
    · rw [initCRIService_of_reaches h ic pc hr]
      simp only [List.countP_append, hc.2.2.1, hf.2.2.1]
      rw [hsel]; simp
    · intro g
      have hr2 : ReachesSelection { h with GetByID := g } ic pc := hr
      rw [initCRIService_of_reaches h ic pc hr, initCRIService_of_reaches _ ic pc hr2]
      have hsel2 : selectionOf { h with GetByID := g } ic pc = _ :=
        selectService_sandbox { h with GetByID := g } (setMeta h ic) (configOf h ic pc)
          (clientOf h ic) ht
      rw [hsel, hsel2]
      rfl
  · intro ht
    have hsel : selectionOf h ic pc = _ :=
      selectService_legacy h (setMeta h ic) (configOf h ic pc) (clientOf h ic) ht
    refine ⟨?_, ?_, ?_⟩
    · rw [initCRIService_of_reaches h ic pc hr]
      simp only [List.countP_append, hc.2.2.2.2.1, hf.2.2.2.2]
      rw [hsel]
      cases (getNRIPlugin h (setMeta h ic)).2 <;> simp
    · rw [initCRIService_of_reaches h ic pc hr]
      simp only [List.countP_append, hc.2.2.2.1, hf.2.2.2.1]
      rw [hsel]
      cases (getNRIPlugin h (setMeta h ic)).2 <;> simp
    · rw [initCRIService_of_reaches h ic pc hr]
      simp only [List.mem_append]
      rw [hsel]; simp

/-- Witness of C3 on the sample host with the toggle set and on the one with the toggle
unset. -/
theorem initCRIService_constructor_exclusive_witness :
    ReachesSelection hostSandbox sampleIC samplePluginConfig ∧
    hostSandbox.Getenv "ENABLE_CRI_SANDBOXES" ≠ "" ∧
    List.countP Event.isSandboxCtor (initCRIService hostSandbox sampleIC).trace = 1 ∧
    List.countP Event.isLegacyCtor (initCRIService hostSandbox sampleIC).trace = 0 ∧
    sampleHost.Getenv "ENABLE_CRI_SANDBOXES" = "" ∧
    List.countP Event.isLegacyCtor (initCRIService sampleHost sampleIC).trace = 1 ∧
    List.countP Event.isSandboxCtor (initCRIService sampleHost sampleIC).trace = 0 :=
  have hs : ReachesSelection hostSandbox sampleIC samplePluginConfig := by
    unfold ReachesSelection; decide
  have hl : ReachesSelection sampleHost sampleIC samplePluginConfig := by
    unfold ReachesSelection; decide
  ⟨hs, by decide,
    ((initCRIService_constructor_exclusive hostSandbox sampleIC samplePluginConfig hs).1
      (by decide)).1,
    ((initCRIService_constructor_exclusive hostSandbox sampleIC samplePluginConfig hs).1
      (by decide)).2.1,
    rfl,
    ((initCRIService_constructor_exclusive sampleHost sampleIC samplePluginConfig hl).2 rfl).1,
    ((initCRIService_constructor_exclusive sampleHost sampleIC samplePluginConfig hl).2 rfl).2.1⟩

theorem getNRIPlugin_of_lookup_error (h : Host) (ic : InitContext) (e : GoError)
    (habs : (h.GetByID ic h.NRIApiPlugin "nri").2 = some e) :
    getNRIPlugin h ic = (none, some e) := by
  simp [getNRIPlugin, habs]

theorem getNRIPlugin_of_mismatch (h : Host) (ic : InitContext)
    (hfound : (h.GetByID ic h.NRIApiPlugin "nri").2 = none)
    (hbad : (assertAPI (h.GetByID ic h.NRIApiPlugin "nri").1).2 = false) :
    getNRIPlugin h ic = (none, some (errorsNew
      ("NRI plugin (" ++ h.NRIApiPlugin ++ ", \"nri\") has incompatible type <nil>"))) := by
  have hnil : (assertAPI (h.GetByID ic h.NRIApiPlugin "nri").1).1 = none := by
    revert hbad
    unfold assertAPI
    cases (h.GetByID ic h.NRIApiPlugin "nri").1 with
    | none => simp
    | some d => rcases d with ⟨tn, _ | a⟩ <;> simp
  have hlit : ", \"nri\") has incompatible type " ++ "<nil>" =
      ", \"nri\") has incompatible type <nil>" := by decide
  simp [getNRIPlugin, hfound, hbad, hnil, fmtT, String.append_assoc, hlit]

theorem initCRIService_legacy_without_handle (h : Host) (ic : InitContext) (pc : PluginConfig)
    (hr : ReachesSelection h ic pc) (ht : h.Getenv "ENABLE_CRI_SANDBOXES" = "")
    (hnil : (getNRIPlugin h (setMeta h ic)).1 = none) :
    Event.serverNewCRIService (configOf h ic pc) (clientOf h ic) none ∈
      (initCRIService h ic).trace ∧
    List.countP Event.isNriStart (initCRIService h ic).trace = 0 ∧
    (∀ s : Option CRIService,
      h.serverNewCRIService (configOf h ic pc) (clientOf h ic) none = (s, none) →
        (initCRIService h ic).outcome = .returned s none) := by
  have hc := traceToClient_counts h pc (configOf h ic pc)
  have hs := selectService_counts h (setMeta h ic) (configOf h ic pc) (clientOf h ic)
  have hs2 : List.countP Event.isNriStart (selectionOf h ic pc).trace = 0 := hs.2.2
  have hsel : selectionOf h ic pc = _ :=
    selectService_legacy h (setMeta h ic) (configOf h ic pc) (clientOf h ic) ht
  have hnrip : (selectionOf h ic pc).nrip = none := by rw [hsel]; exact hnil
  rw [initCRIService_of_reaches h ic pc hr]
  refine ⟨?_, ?_, ?_⟩
  · simp only [List.mem_append]
    rw [hsel, hnil]; simp
  · simp only [List.countP_append, hc.2.2.2.2.2.2, hs2]
    unfold finish startService
    rw [hnrip]
    cases (selectionOf h ic pc).err <;> simp
  · intro s hctor
    have herr : (selectionOf h ic pc).err = none := by rw [hsel, hnil, hctor]
    have hsv : (selectionOf h ic pc).s = s := by rw [hsel, hnil, hctor]
    simp [finish, herr, startService, hnrip, hsv]

/-- C4: with the toggle unset, whenever the lookup of the plugin of type `NRIApiPlugin` and id
`nri` returns an error, `getNRIPlugin` yields no handle (and that error), and a call of
`initCRIService` that reaches the service selection does not abort on it: it calls the
legacy-mode constructor with a nil capability handle, never calls the capability's `Start`,
and whenever that constructor succeeds it returns the constructed service handle with a
nil error. -/
theorem initCRIService_nri_absent (h : Host) (ic : InitContext) (pc : PluginConfig) (e : GoError)
    (hr : ReachesSelection h ic pc) (ht : h.Getenv "ENABLE_CRI_SANDBOXES" = "")
    (habs : (h.GetByID (setMeta h ic) h.NRIApiPlugin "nri").2 = some e) :
    getNRIPlugin h (setMeta h ic) = (none, some e) ∧
    Event.serverNewCRIService (configOf h ic pc) (clientOf h ic) none ∈
      (initCRIService h ic).trace ∧
    List.countP Event.isNriStart (initCRIService h ic).trace = 0 ∧
    (∀ s : Option CRIService,
      h.serverNewCRIService (configOf h ic pc) (clientOf h ic) none = (s, none) →
        (initCRIService h ic).outcome = .returned s none) := by
  have hg := getNRIPlugin_of_lookup_error h (setMeta h ic) e habs
  exact ⟨hg, initCRIService_legacy_without_handle h ic pc hr ht (by rw [hg])⟩

/-- Witness of C4 on the sample host in which no NRI plugin is registered. -/
theorem initCRIService_nri_absent_witness :
    ReachesSelection hostNoNRI sampleIC samplePluginConfig ∧
    hostNoNRI.Getenv "ENABLE_CRI_SANDBOXES" = "" ∧
    (initCRIService hostNoNRI sampleIC).outcome = .returned (some ⟨3⟩) none ∧
    List.countP Event.isNriStart (initCRIService hostNoNRI sampleIC).trace = 0 :=
  have hr : ReachesSelection hostNoNRI sampleIC samplePluginConfig := by
    unfold ReachesSelection; decide
  have t := initCRIService_nri_absent hostNoNRI sampleIC samplePluginConfig
    (errorfW "no io.containerd.nri.v1 plugins with id nri: " (errorsNew "not found")) hr rfl
    (by decide)
  ⟨hr, rfl, t.2.2.2 (some ⟨3⟩) rfl, t.2.2.1⟩

/-- C5, refuted as stated: the sample host whose lookup fails (no plugin value, an error)
and the sample host whose lookup finds an `int` (a value that does not implement
`nri.API`) get the same result from `getNRIPlugin`, a nil handle and an equal error, and
their calls of `initCRIService` have the same effects and the same outcome. -/
theorem getNRIPlugin_mismatch_same_as_lookup_error :
    (hostLookupFails.GetByID sampleIC hostLookupFails.NRIApiPlugin "nri").1 = none ∧
    (hostLookupFails.GetByID sampleIC hostLookupFails.NRIApiPlugin "nri").2 ≠ none ∧
    ((hostBadNRI "int").GetByID sampleIC (hostBadNRI "int").NRIApiPlugin "nri") =
      (some ⟨"int", none⟩, none) ∧
    getNRIPlugin hostLookupFails sampleIC = getNRIPlugin (hostBadNRI "int") sampleIC ∧
    (initCRIService hostLookupFails sampleIC).trace =
      (initCRIService (hostBadNRI "int") sampleIC).trace ∧
    (initCRIService hostLookupFails sampleIC).outcome =
      (initCRIService (hostBadNRI "int") sampleIC).outcome := by
  decide

/-- C5, amended: with the toggle unset, for every plugin value that the lookup finds but that
does not implement `nri.API`, `getNRIPlugin` yields no handle and a type-mismatch error, a
fresh error with a fixed message that wraps nothing, whereas for a lookup that fails
`getNRIPlugin` yields no handle and the error of the lookup itself: the two results are
equal exactly when the lookup failed with an error equal to the type-mismatch error, and
differ in their error otherwise. A call of `initCRIService` that reaches the service
selection logs the same line in both cases, still calls the legacy-mode constructor, with
a nil capability handle, never starts the capability, and returns the constructed service
with a nil error whenever that constructor succeeds. -/
theorem initCRIService_nri_type_mismatch (h : Host) (ic : InitContext) (pc : PluginConfig)
    (hr : ReachesSelection h ic pc) (ht : h.Getenv "ENABLE_CRI_SANDBOXES" = "")
    (hfound : (h.GetByID (setMeta h ic) h.NRIApiPlugin "nri").2 = none)
    (hbad : (assertAPI (h.GetByID (setMeta h ic) h.NRIApiPlugin "nri").1).2 = false) :
    getNRIPlugin h (setMeta h ic) = (none, some (errorsNew
      ("NRI plugin (" ++ h.NRIApiPlugin ++ ", \"nri\") has incompatible type <nil>"))) ∧
    (errorsNew
      ("NRI plugin (" ++ h.NRIApiPlugin ++ ", \"nri\") has incompatible type <nil>")).unwrap
        = none ∧
    (∀ (h2 : Host) (ic2 : InitContext) (e : GoError),
      (h2.GetByID ic2 h2.NRIApiPlugin "nri").2 = some e →
        getNRIPlugin h2 ic2 = (none, some e) ∧
        (getNRIPlugin h2 ic2 = getNRIPlugin h (setMeta h ic) ↔
          e = errorsNew
            ("NRI plugin (" ++ h.NRIApiPlugin ++ ", \"nri\") has incompatible type <nil>"))) ∧
    (selectionOf h ic pc).trace =
      [.Getenv "ENABLE_CRI_SANDBOXES", .logInfo "using legacy CRI server",
        .GetByID h.NRIApiPlugin "nri",
        .logInfo "NRI service not found, disabling NRI support",
        .serverNewCRIService (configOf h ic pc) (clientOf h ic) none] ∧
    Event.serverNewCRIService (configOf h ic pc) (clientOf h ic) none ∈
      (initCRIService h ic).trace ∧
    List.countP Event.isNriStart (initCRIService h ic).trace = 0 ∧
    (∀ s : Option CRIService,
      h.serverNewCRIService (configOf h ic pc) (clientOf h ic) none = (s, none) →
        (initCRIService h ic).outcome = .returned s none) := by
  have hg := getNRIPlugin_of_mismatch h (setMeta h ic) hfound hbad
  refine ⟨hg, rfl, ?_, ?_, initCRIService_legacy_without_handle h ic pc hr ht (by rw [hg])⟩
  · intro h2 ic2 e habs
    have hg2 := getNRIPlugin_of_lookup_error h2 ic2 e habs
    refine ⟨hg2, ?_⟩
    rw [hg, hg2]
    constructor
    · intro heq
      simpa using heq
    · intro he
      rw [he]
  · have hsel : selectionOf h ic pc = _ :=
      selectService_legacy h (setMeta h ic) (configOf h ic pc) (clientOf h ic) ht
    rw [hsel, hg]
    rfl

/-- Witness of the amended C5 on the sample host whose NRI plugin value is an `int`, against
the sample host in which no NRI plugin is registered. -/
theorem initCRIService_nri_type_mismatch_witness :
    ReachesSelection (hostBadNRI "int") sampleIC samplePluginConfig ∧
    (assertAPI ((hostBadNRI "int").GetByID (setMeta (hostBadNRI "int") sampleIC)
      (hostBadNRI "int").NRIApiPlugin "nri").1).2 = false ∧
    getNRIPlugin hostNoNRI sampleIC ≠
      getNRIPlugin (hostBadNRI "int") (setMeta (hostBadNRI "int") sampleIC) ∧
    (initCRIService (hostBadNRI "int") sampleIC).outcome = .returned (some ⟨3⟩) none :=
  have hr : ReachesSelection (hostBadNRI "int") sampleIC samplePluginConfig := by
    unfold ReachesSelection; decide
  have t := initCRIService_nri_type_mismatch (hostBadNRI "int") sampleIC samplePluginConfig
    hr rfl rfl rfl
  ⟨hr, rfl,
    fun heq => absurd ((t.2.2.1 hostNoNRI sampleIC
      (errorfW "no io.containerd.nri.v1 plugins with id nri: " (errorsNew "not found"))
      (by decide)).2.1 heq) (by decide),
    t.2.2.2.2.2.2 (some ⟨3⟩) rfl⟩

theorem filter_or_eq_nil (p q : Event → Bool) (l : List Event)
    (hp : List.countP p l = 0) (hq : List.countP q l = 0) :
    l.filter (fun ev => p ev || q ev) = [] := by
  rw [List.countP_eq_zero] at hp hq
  rw [List.filter_eq_nil_iff]
  intro a ha
  have h1 := hp a ha
  have h2 := hq a ha
  simp [h1, h2]

theorem selectService_lookups (h : Host) (ic : InitContext) (c : Config) (cl : Option Client) :
    (selectService h ic c cl).trace.filter (fun ev => ev.isGetenv || ev.isGetByID) =
      if h.Getenv "ENABLE_CRI_SANDBOXES" ≠ "" then [.Getenv "ENABLE_CRI_SANDBOXES"]
      else [.Getenv "ENABLE_CRI_SANDBOXES", .GetByID h.NRIApiPlugin "nri"] := by
  by_cases ht : h.Getenv "ENABLE_CRI_SANDBOXES" = ""
  · rw [selectService_legacy h ic c cl ht]
    cases (getNRIPlugin h ic).2 <;> simp [ht, List.filter]
  · rw [selectService_sandbox h ic c cl ht]
    simp [ht, List.filter]

/-- C6, refuted as stated: on the sample host with the toggle set the call gets past the
client construction and no plugin lookup occurs at all; on the sample host with the toggle
unset the lookup occurs after the evaluation of the toggle, not before it. -/
theorem initCRIService_lookup_not_before_toggle :
    ReachesSelection hostSandbox sampleIC samplePluginConfig ∧
    List.countP Event.isGetByID (initCRIService hostSandbox sampleIC).trace = 0 ∧
    (initCRIService hostSandbox sampleIC).trace.filter (fun ev => ev.isGetenv || ev.isGetByID) =
      [.Getenv "ENABLE_CRI_SANDBOXES"] ∧
    ReachesSelection sampleHost sampleIC samplePluginConfig ∧
    (initCRIService sampleHost sampleIC).trace.filter (fun ev => ev.isGetenv || ev.isGetByID) =
      [.Getenv "ENABLE_CRI_SANDBOXES", .GetByID "io.containerd.nri.v1" "nri"] := by
  unfold ReachesSelection
  decide

/-- C6, amended: in every call of `initCRIService` that gets past the runtime-client
construction the toggle is evaluated exactly once and before any plugin lookup; when the
toggle is set no lookup occurs; when it is unset exactly one lookup occurs, after the
evaluation of the toggle, and it has completed before the legacy-mode constructor is called,
which receives the handle that `getNRIPlugin` returned. -/
theorem initCRIService_toggle_then_lookup (h : Host) (ic : InitContext) (pc : PluginConfig)
    (hr : ReachesSelection h ic pc) :
    (initCRIService h ic).trace.filter (fun ev => ev.isGetenv || ev.isGetByID) =
      (if h.Getenv "ENABLE_CRI_SANDBOXES" ≠ "" then [.Getenv "ENABLE_CRI_SANDBOXES"]
       else [.Getenv "ENABLE_CRI_SANDBOXES", .GetByID h.NRIApiPlugin "nri"]) ∧
    (h.Getenv "ENABLE_CRI_SANDBOXES" = "" →
      ∃ pre post : List Event,
        (initCRIService h ic).trace = pre ++ Event.GetByID h.NRIApiPlugin "nri" :: post ∧
        List.countP Event.isLegacyCtor pre = 0 ∧
        Event.serverNewCRIService (configOf h ic pc) (clientOf h ic)
          (getNRIPlugin h (setMeta h ic)).1 ∈ post) := by
  have hc := traceToClient_counts h pc (configOf h ic pc)
  have hf := finish_counts (selectionOf h ic pc)
  have f1 := filter_or_eq_nil Event.isGetenv Event.isGetByID _ hc.2.1 hc.2.2.1
  have f3 := filter_or_eq_nil Event.isGetenv Event.isGetByID _ hf.2.1 hf.2.2.1
  have f2 : (selectionOf h ic pc).trace.filter (fun ev => ev.isGetenv || ev.isGetByID) = _ :=
    selectService_lookups h (setMeta h ic) (configOf h ic pc) (clientOf h ic)
  rw [initCRIService_of_reaches h ic pc hr]
  refine ⟨?_, ?_⟩
  · simp only [List.filter_append, f1, f2, f3, List.nil_append, List.append_nil]
  · intro ht
    have hsel : selectionOf h ic pc = _ :=
      selectService_legacy h (setMeta h ic) (configOf h ic pc) (clientOf h ic) ht
    refine ⟨traceToClient h pc (configOf h ic pc)
        ++ [.Getenv "ENABLE_CRI_SANDBOXES", .logInfo "using legacy CRI server"],
      (match (getNRIPlugin h (setMeta h ic)).2 with
        | some _ => [.logInfo "NRI service not found, disabling NRI support"]
        | none => [])
        ++ [.serverNewCRIService (configOf h ic pc) (clientOf h ic)
          (getNRIPlugin h (setMeta h ic)).1]
        ++ (finish (selectionOf h ic pc)).1, ?_, ?_, ?_⟩
    · simp only []
      rw [hsel]
      simp [List.append_assoc]
    · simp [List.countP_append, hc.2.2.2.2.1]
    · simp

/-- Witness of the amended C6 on the sample host with the toggle unset. -/
theorem initCRIService_toggle_then_lookup_witness :
    ReachesSelection sampleHost sampleIC samplePluginConfig ∧
    (initCRIService sampleHost sampleIC).trace.filter (fun ev => ev.isGetenv || ev.isGetByID) =
      (if sampleHost.Getenv "ENABLE_CRI_SANDBOXES" ≠ "" then [.Getenv "ENABLE_CRI_SANDBOXES"]
       else [.Getenv "ENABLE_CRI_SANDBOXES", .GetByID sampleHost.NRIApiPlugin "nri"]) :=
  have hr : ReachesSelection sampleHost sampleIC samplePluginConfig := by
    unfold ReachesSelection; decide
  ⟨hr, (initCRIService_toggle_then_lookup sampleHost sampleIC samplePluginConfig hr).1⟩

/-- C7: in every call of `initCRIService` in which the service is constructed without error,
`Run` is dispatched exactly once; if the capability handle is present, `Start` is called
exactly once and after that dispatch, and if `Start` returns an error the call ends in
process termination with the fatal log line `Failed to start NRI service` carrying that
error as the last effect, and returns neither an error nor a service handle; if `Start`
succeeds the service handle is returned with a nil error; if the handle is absent `Start`
is never called and the service handle is returned with a nil error. The handle is the one
`getNRIPlugin` returned when the toggle is unset and nil when it is set. -/
theorem initCRIService_capability_start (h : Host) (ic : InitContext) (pc : PluginConfig)
    (hr : ReachesSelection h ic pc) (hok : (selectionOf h ic pc).err = none) :
    (selectionOf h ic pc).nrip =
      (if h.Getenv "ENABLE_CRI_SANDBOXES" ≠ "" then none
       else (getNRIPlugin h (setMeta h ic)).1) ∧
    (∀ a : APIHandle, (selectionOf h ic pc).nrip = some a →
      (initCRIService h ic).trace.filter (fun ev => ev.isGoRun || ev.isNriStart) =
        [.goRun (selectionOf h ic pc).s, .nriStart] ∧
      (∀ e : GoError, a.impl.Start = some e →
        (initCRIService h ic).outcome = .fatal ∧
        ∃ pre : List Event,
          (initCRIService h ic).trace = pre ++ [.logFatal "Failed to start NRI service" e]) ∧
      (a.impl.Start = none →
        (initCRIService h ic).outcome = .returned (selectionOf h ic pc).s none)) ∧
    ((selectionOf h ic pc).nrip = none →
      (initCRIService h ic).trace.filter (fun ev => ev.isGoRun || ev.isNriStart) =
        [.goRun (selectionOf h ic pc).s] ∧
      (initCRIService h ic).outcome = .returned (selectionOf h ic pc).s none) := by
  have hc := traceToClient_counts h pc (configOf h ic pc)
  have hs := selectService_counts h (setMeta h ic) (configOf h ic pc) (clientOf h ic)
  have f1 := filter_or_eq_nil Event.isGoRun Event.isNriStart _ hc.2.2.2.2.2.1 hc.2.2.2.2.2.2
  have f2 : (selectionOf h ic pc).trace.filter (fun ev => ev.isGoRun || ev.isNriStart) = [] :=
    filter_or_eq_nil Event.isGoRun Event.isNriStart _ hs.2.1 hs.2.2
  rw [initCRIService_of_reaches h ic pc hr, finish_of_ok _ hok]
  refine ⟨?_, ?_, ?_⟩
  · by_cases ht : h.Getenv "ENABLE_CRI_SANDBOXES" = ""
    · have hsel : selectionOf h ic pc = _ :=
        selectService_legacy h (setMeta h ic) (configOf h ic pc) (clientOf h ic) ht
      rw [hsel]; simp [ht]
    · have hsel : selectionOf h ic pc = _ :=
        selectService_sandbox h (setMeta h ic) (configOf h ic pc) (clientOf h ic) ht
      rw [hsel]; simp [ht]
  · intro a ha
    rw [ha]
    refine ⟨?_, ?_, ?_⟩
    · simp only [List.filter_append, f1, f2, List.nil_append]
      unfold startService
      cases hst : a.impl.Start <;> simp [hst, List.filter]
    · intro e he
      unfold startService
      simp only [he]
      refine ⟨trivial, traceToClient h pc (configOf h ic pc) ++ (selectionOf h ic pc).trace
        ++ [.goRun (selectionOf h ic pc).s,
          .logInfo "using experimental NRI integration - disable nri plugin to prevent this",
          .nriStart], ?_⟩
      simp [List.append_assoc]
    · intro he
      unfold startService
      simp only [he]
  · intro hn
    rw [hn]
    refine ⟨?_, ?_⟩
    · simp only [List.filter_append, f1, f2, List.nil_append]
      simp [startService, List.filter]
    · simp [startService]

/-- Witness of C7 on the sample host whose NRI plugin fails to start and on the sample
host in which no NRI plugin is registered. -/
theorem initCRIService_capability_start_witness :
    ReachesSelection hostStartFails sampleIC samplePluginConfig ∧
    (selectionOf hostStartFails sampleIC samplePluginConfig).err = none ∧
    (initCRIService hostStartFails sampleIC).trace.filter
        (fun ev => ev.isGoRun || ev.isNriStart) = [.goRun (some ⟨3⟩), .nriStart] ∧
    (initCRIService hostStartFails sampleIC).outcome = .fatal ∧
    (initCRIService hostNoNRI sampleIC).trace.filter
        (fun ev => ev.isGoRun || ev.isNriStart) = [.goRun (some ⟨3⟩)] :=
  have hr : ReachesSelection hostStartFails sampleIC samplePluginConfig := by
    unfold ReachesSelection; decide
  have hr2 : ReachesSelection hostNoNRI sampleIC samplePluginConfig := by
    unfold ReachesSelection; decide
  have t := (initCRIService_capability_start hostStartFails sampleIC samplePluginConfig hr
    rfl).2.1 ⟨"*nri.local", ⟨some (errorsNew "nri down")⟩⟩ rfl
  ⟨hr, rfl, t.1, (t.2.1 (errorsNew "nri down") rfl).1,
    ((initCRIService_capability_start hostNoNRI sampleIC samplePluginConfig hr2 rfl).2.2
      rfl).1⟩

end Cri
